import Mathlib

/-!
Shallow embedding of `src/spectral_flux.cpp` from the SolarAxionFlux repository.

C++ `double` arithmetic is embedded as exact real arithmetic (`ℝ`); the GSL
quadrature routines (`gsl_integration_qag`, `gsl_integration_cquad`,
`gsl_integration_qagp`) are numerical oracles external to this repository and
are embedded as abstract functionals passed in as parameters, so that the
structure of every call (integrand, integration bounds, break points) is fully
visible in the embedding.  `SolarModel`, `Isotope` and `OneDInterpolator` are
external collaborators of this file and are embedded as abstract records of
their accessors.  Workspace allocation/free calls and the optional
`save_to_file` persistence are resource management with no effect on the
returned values and are not modelled.
-/

namespace SolarAxionFlux

/-- The opacity-dataset tag of a solar model (enumeration `OP / OPAS / LEDCOP /
ATOMIC` consumed from the solar-model component). -/
inductive OpacityCode : Type
  | OP : OpacityCode
  | OPAS : OpacityCode
  | LEDCOP : OpacityCode
  | ATOMIC : OpacityCode
deriving DecidableEq

/-- External collaborator `SolarModel`: per `(energy, radius)` production-rate
accessors, the valid radius range `r_lo`/`r_hi`, the temperature profile and the
opacity-dataset tag.  All accessors are pure and read-only. -/
structure SolarModel : Type where
  r_lo : ℝ
  r_hi : ℝ
  opcode : OpacityCode
  Gamma_P_Primakoff : ℝ → ℝ → ℝ
  Gamma_P_Compton : ℝ → ℝ → ℝ
  Gamma_P_opacity_element : ℝ → ℝ → String → ℝ
  Gamma_P_opacity : ℝ → ℝ → ℝ
  Gamma_P_ff : ℝ → ℝ → ℝ
  Gamma_P_ee : ℝ → ℝ → ℝ
  Gamma_P_all_electron : ℝ → ℝ → ℝ
  temperature_in_keV : ℝ → ℝ

/-- External collaborator `Isotope`: only its `name()` accessor is consumed by
this file, so an isotope is embedded as that name. -/
def Isotope : Type := String

/-- GSL's `gsl_pow_2`. -/
def gsl_pow_2 (x : ℝ) : ℝ := x * x

/-- GSL's `gsl_expm1 u = exp(u) - 1` (documented GSL contract). -/
noncomputable def gsl_expm1 (u : ℝ) : ℝ := Real.exp u - 1

/-- The library constant `pi`. -/
noncomputable def pi : ℝ := Real.pi

/-- `struct integration_params`: transient bundle `(erg, sol, isotope)` passed
through the quadrature callback boundary. -/
structure integration_params : Type where
  erg : ℝ
  sol : SolarModel
  isotope : Isotope

/-- Primakoff contribution integrand. -/
noncomputable def integrand_Primakoff (r : ℝ) (p : integration_params) : ℝ :=
  let erg := p.erg
  let sol := p.sol
  0.5 * gsl_pow_2 (r * erg / pi) * (sol.Gamma_P_Primakoff erg r)

/-- Compton contribution integrand. -/
noncomputable def integrand_Compton (r : ℝ) (p : integration_params) : ℝ :=
  let erg := p.erg
  let sol := p.sol
  0.5 * gsl_pow_2 (r * erg / pi) * (sol.Gamma_P_Compton erg r)

/-- Weighted Compton contribution integrand, with the `erg == 0` guard of the
source. -/
noncomputable def integrand_weightedCompton (r : ℝ) (p : integration_params) : ℝ :=
  let erg := p.erg
  if erg = 0 then 0 else
    let sol := p.sol
    let u := erg / (sol.temperature_in_keV r)
    0.5 * gsl_pow_2 (r * erg / pi) * 0.5 * (1.0 - 1.0 / gsl_expm1 u) * (sol.Gamma_P_Compton erg r)

/-- Single-element opacity contribution integrand. -/
noncomputable def integrand_opacity_element (r : ℝ) (p : integration_params) : ℝ :=
  let erg := p.erg
  let el_name := p.isotope
  let sol := p.sol
  0.5 * gsl_pow_2 (r * erg / pi) * (sol.Gamma_P_opacity_element erg r el_name)

/-- The element-loop accumulation of `integrand_opacity`:
`for (int k = 2; k < num_op_elements; k++) { element_contrib += ... }`,
embedded as a left fold over the loop indices `[2, num_op_elements)`.
`num_op_elements` and `op_element_names` are library constants declared outside
this source file and are taken as parameters. -/
noncomputable def op_element_loop (num_op_elements : ℕ) (op_element_names : ℕ → String)
    (sol : SolarModel) (erg r : ℝ) : ℝ :=
  (((List.range num_op_elements).drop 2).map
    (fun k => sol.Gamma_P_opacity_element erg r (op_element_names k))).foldl (· + ·) 0.0

/-- Aggregated-metal opacity integrand: dispatches on the model's opacity code
(two sequential `if`s over a `result` initialised to `0.0` in the source). -/
noncomputable def integrand_opacity (num_op_elements : ℕ) (op_element_names : ℕ → String)
    (r : ℝ) (p : integration_params) : ℝ :=
  let result : ℝ := 0.0
  let erg := p.erg
  let sol := p.sol
  let result := if sol.opcode = OpacityCode.OP then
      0.5 * gsl_pow_2 (r * erg / pi) * op_element_loop num_op_elements op_element_names sol erg r
    else result
  let result := if (sol.opcode = OpacityCode.OPAS) ∨ (sol.opcode = OpacityCode.LEDCOP) ∨
      (sol.opcode = OpacityCode.ATOMIC) then
      0.5 * gsl_pow_2 (r * erg / pi) * sol.Gamma_P_opacity erg r
    else result
  result

/-- Combined free-free + electron-electron contribution integrand. -/
noncomputable def integrand_all_ff (r : ℝ) (p : integration_params) : ℝ :=
  let erg := p.erg
  let sol := p.sol
  0.5 * gsl_pow_2 (r * erg / pi) * (sol.Gamma_P_ff erg r + sol.Gamma_P_ee erg r)

/-- Combined axion-electron contribution integrand. -/
noncomputable def integrand_all_axionelectron (r : ℝ) (p : integration_params) : ℝ :=
  let erg := p.erg
  let sol := p.sol
  0.5 * gsl_pow_2 (r * erg / pi) * sol.Gamma_P_all_electron erg r

/-- The dimensional scale factor
`pow(radius_sol/(1.0e-2*keV2cm),3) / ( pow(1.0e2*distance_sol,2) * (1.0e6*hbar) )`.
The constants `radius_sol`, `keV2cm`, `distance_sol`, `hbar` are library
constants declared outside this source file and are taken as parameters. -/
noncomputable def unit_factor (radius_sol keV2cm distance_sol hbar : ℝ) : ℝ :=
  (radius_sol / (1.0e-2 * keV2cm))^3 / ((1.0e2 * distance_sol)^2 * (1.0e6 * hbar))

/-- An abstract quadrature oracle `quad f a b`, standing for one GSL adaptive
integration call of the integrand `f` over `[a, b]` (a given tolerance/rule
configuration such as `gsl_integration_qag` with `int_method_1`, or
`gsl_integration_cquad`). -/
def QuadRule : Type := (ℝ → ℝ) → ℝ → ℝ → ℝ

/-- The volume integrator `calculate_spectral_flux`: for each requested energy,
one `gsl_integration_qag` call of the chosen integrand over `[s.r_lo, s.r_hi]`,
scaled by the dimensional factor. -/
noncomputable def calculate_spectral_flux (radius_sol keV2cm distance_sol hbar : ℝ)
    (qag : QuadRule) (ergs : List ℝ) (isotope : Isotope) (s : SolarModel)
    (integrand : ℝ → integration_params → ℝ) : List ℝ :=
  let factor := unit_factor radius_sol keV2cm distance_sol hbar
  ergs.map (fun erg =>
    let p : integration_params := ⟨erg, s, isotope⟩
    factor * qag (fun r => integrand r p) s.r_lo s.r_hi)

/-- `struct solar_disc_integration_params`: bundle of (energy, current impact
parameter, `r_max`, solar model, process selector) threaded through the nested
disc integration; the inner-integration workspace field is resource management
and is not modelled. -/
structure solar_disc_integration_params : Type where
  erg : ℝ
  rad : ℝ
  r_max : ℝ
  s : SolarModel
  integrand : SolarModel → ℝ → ℝ → ℝ

/-- The disc integrator's inner (line-of-sight) integrand `rho_integrand`. -/
noncomputable def rho_integrand (rho : ℝ) (p1 : solar_disc_integration_params) : ℝ :=
  let erg := p1.erg
  let rad := p1.rad
  let s := p1.s
  let norm_factor1 : ℝ := 1.0
  let cylinder := rho * rho - rad * rad
  let cylinder := rho / Real.sqrt cylinder
  cylinder * gsl_pow_2 (0.5 * erg / pi) * (p1.integrand s erg rho) / norm_factor1

/-- The disc integrator's outer integrand `rad_integrand`: stores the current
impact parameter into the shared parameter bundle (`p2->rad = rad;`, embedded
as a functional record update), clamps the upper bound to
`min(p2->r_max, s->r_hi)` and runs one `gsl_integration_cquad` call of
`rho_integrand` over `[rad, r_max]`, scaling the result by `rad`. -/
noncomputable def rad_integrand (cquad : QuadRule) (rad : ℝ)
    (p2 : solar_disc_integration_params) : ℝ :=
  let p2 := { p2 with rad := rad }
  let s := p2.s
  let r_max := min p2.r_max s.r_hi
  let result := cquad (fun rho => rho_integrand rho p2) rad r_max
  rad * result

/-- The disc integrator `calculate_spectral_flux_solar_disc`: clamps `r_max` to
`min(r_max, s.r_hi)` and, for each requested energy, runs one
`gsl_integration_qag` call of `rad_integrand` over `[s.r_lo, r_max]` (the
per-energy mutation `p2.erg = ergs[i]` of the shared bundle is embedded by
building the bundle inside the map). -/
noncomputable def calculate_spectral_flux_solar_disc (radius_sol keV2cm distance_sol hbar : ℝ)
    (qag cquad : QuadRule) (ergs : List ℝ) (_isotope : Isotope) (r_max : ℝ) (s : SolarModel)
    (integrand : SolarModel → ℝ → ℝ → ℝ) : List ℝ :=
  let factor := unit_factor radius_sol keV2cm distance_sol hbar
  let r_min := s.r_lo
  let r_max := min r_max s.r_hi
  let norm_factor1 : ℝ := 1.0
  ergs.map (fun erg =>
    let p2 : solar_disc_integration_params := ⟨erg, 0.0, r_max, s, integrand⟩
    factor * norm_factor1 * qag (fun rad => rad_integrand cquad rad p2) r_min r_max)

/-- `struct integration_params2`: bundle of (solar model, integrand function
pointer, isotope) for the windowed on-the-fly flux integration. -/
structure integration_params2 : Type where
  sol : SolarModel
  integrand : ℝ → integration_params → ℝ
  isotope : Isotope

/-- `spectral_flux_integrand`: at each energy, one inner `gsl_integration_qag`
call of the bundled radial integrand over `[s.r_lo, s.r_hi]`, scaled by the
dimensional factor and divided by the local `normfactor = 1.0`. -/
noncomputable def spectral_flux_integrand (radius_sol keV2cm distance_sol hbar : ℝ)
    (qag : QuadRule) (erg : ℝ) (p2 : integration_params2) : ℝ :=
  let factor := unit_factor radius_sol keV2cm distance_sol hbar
  let isotope := p2.isotope
  let s := p2.sol
  let normfactor : ℝ := 1.0
  let p : integration_params := ⟨erg, s, isotope⟩
  let result := qag (fun r => p2.integrand r p) s.r_lo s.r_hi
  factor * result / normfactor

/-- `calculate_flux`: the windowed on-the-fly flux integrator.  The outer
`gsl_integration_qag` call (rule `int_method_2`, tolerances `abs_prec2` /
`rel_prec2`, embedded as the oracle `qag_2`) integrates
`spectral_flux_integrand` over `[lowerlimit, upperlimit]` with the bundle
hard-coding `integrand_all_axionelectron`, and the result is scaled by the
local `normfactor = 1.0e20`. -/
noncomputable def calculate_flux (radius_sol keV2cm distance_sol hbar : ℝ)
    (qag qag_2 : QuadRule) (lowerlimit upperlimit : ℝ) (s : SolarModel)
    (isotope : Isotope) : ℝ :=
  let normfactor : ℝ := 1.0e20
  let p2 : integration_params2 := ⟨s, fun r p => integrand_all_axionelectron r p, isotope⟩
  let result := qag_2
    (fun erg => spectral_flux_integrand radius_sol keV2cm distance_sol hbar qag erg p2)
    lowerlimit upperlimit
  result * normfactor

/-- Modelled from the spec: a process-generic variant of `calculate_flux`
(the source exposes no such parameter; this definition exists only to state
that `calculate_flux` is its instantiation at `integrand_all_axionelectron`). -/
noncomputable def calculate_flux_with_process (radius_sol keV2cm distance_sol hbar : ℝ)
    (qag qag_2 : QuadRule) (process : ℝ → integration_params → ℝ)
    (lowerlimit upperlimit : ℝ) (s : SolarModel) (isotope : Isotope) : ℝ :=
  let normfactor : ℝ := 1.0e20
  let p2 : integration_params2 := ⟨s, process, isotope⟩
  let result := qag_2
    (fun erg => spectral_flux_integrand radius_sol keV2cm distance_sol hbar qag erg p2)
    lowerlimit upperlimit
  result * normfactor

/-!
The file-based windowed integrator and the Monte-Carlo generator's grid and
cumulative-table construction involve only rational constants, comparisons and
field arithmetic, so they are embedded over `ℚ` (exact arithmetic in place of
C++ `double`); division by zero denotes `0` where IEEE doubles would give
`NaN`/`inf`.
-/

/-- External collaborator `OneDInterpolator`: domain bounds `lower()`/`upper()`
and the interpolation accessor, abstracted from a loaded table file. -/
structure OneDInterpolator : Type where
  lower : ℚ
  upper : ℚ
  interpolate : ℚ → ℚ

/-- `flux_from_file_integrand`: evaluates the interpolant. -/
def flux_from_file_integrand (erg : ℚ) (interp : OneDInterpolator) : ℚ :=
  interp.interpolate erg

/-- The function-local constant `all_peaks` of `integrated_flux_from_file`:
peak positions for axion-electron interactions. -/
def all_peaks : List ℚ :=
  [0.653029, 0.779074, 0.920547, 0.956836, 1.02042, 1.05343, 1.3497, 1.40807,
   1.46949, 1.59487, 1.62314, 1.65075, 1.72461, 1.76286, 1.86037, 2.00007,
   2.45281, 2.61233, 3.12669, 3.30616, 3.88237, 4.08163, 5.64394, 5.76064,
   6.14217, 6.19863, 6.58874, 6.63942, 6.66482, 7.68441, 7.74104, 7.76785]

/-- A quadrature oracle over `ℚ` for one `gsl_integration_qag` call. -/
def QuadRuleQ : Type := (ℚ → ℚ) → ℚ → ℚ → ℚ

/-- A quadrature oracle for one `gsl_integration_qagp` call: integrates the
function over the range spanned by the given break-point list, treating each
interior point as a known singularity/peak. -/
def QuadRuleP : Type := (ℚ → ℚ) → List ℚ → ℚ

/-- `integrated_flux_from_file`: loads a tabulated spectrum (the
`OneDInterpolator` constructor is abstracted as the loader `load`), eagerly
checks the requested window against the table's domain (`terminate_with_error`
is embedded as `Except.error` carrying the message built in the source), and
integrates the interpolant, splitting at the peaks inside `(erg_min, erg_max)`
when `includes_electron_interactions` is set. -/
def integrated_flux_from_file (qag : QuadRuleQ) (qagp : QuadRuleP)
    (load : String → OneDInterpolator) (erg_min erg_max : ℚ)
    (spectral_flux_file : String) (includes_electron_interactions : Bool) :
    Except String ℚ :=
  let spectral_flux := load spectral_flux_file
  if (erg_min < spectral_flux.lower) ∨ (erg_max > spectral_flux.upper) then
    Except.error ("ERROR! The integration boundaries given to 'integrated_flux_from_file' are incompatible with the min/max available energy in the file " ++ spectral_flux_file ++ ".")
  else
    let f := fun erg => flux_from_file_integrand erg spectral_flux
    if includes_electron_interactions then
      let relevant_peaks : List ℚ :=
        erg_min :: all_peaks.filter (fun peak_erg => erg_min < peak_erg ∧ peak_erg < erg_max)
          ++ [erg_max]
      Except.ok (qagp f relevant_peaks)
    else
      Except.ok (qag f erg_min erg_max)

/-- The C++ cast `int(x)` of a non-negative-or-negative `double`: truncation
toward zero. -/
def c_int_trunc (q : ℚ) : ℤ :=
  if 0 ≤ q then ⌊q⌋ else ⌈q⌉

/-- The energy grid built by the `AxionMCGenerator` constructor:
`n_omega_vals = int((omega_max-omega_min)/omega_delta)` points
`inv_cdf_data_erg[i] = omega_min + i*omega_delta`. -/
def mc_energy_grid (omega_min omega_max omega_delta : ℚ) : List ℚ :=
  let n_omega_vals := (c_int_trunc ((omega_max - omega_min) / omega_delta)).toNat
  (List.range n_omega_vals).map (fun (i : ℕ) => omega_min + (i : ℚ) * omega_delta)

/-- The in-place accumulation loop of the `AxionMCGenerator` constructor
(`for(int i=1; i<n_omega_vals; ++i) { norm += 0.5*omega_delta*(inv_cdf_data_x[i]
+ inv_cdf_data_x[i-1]); inv_cdf_data_x[i] = norm; }`), embedded by explicit
state passing: when the loop reads `inv_cdf_data_x[i-1]`, that slot has already
been overwritten with the running value `norm`, so each step contributes
`0.5*omega_delta*(x_i + norm)` where `x_i` is the raw flux at index `i`. -/
def mc_cdf_loop (omega_delta : ℚ) : ℚ → List ℚ → List ℚ
  | _, [] => []
  | norm, x_i :: rest =>
    let norm2 := norm + 0.5 * omega_delta * (x_i + norm)
    norm2 :: mc_cdf_loop omega_delta norm2 rest

/-- The un-normalized cumulative sequence stored in `inv_cdf_data_x` after the
accumulation loop: slot 0 is overwritten with `norm = 0.0` before the loop
(`inv_cdf_data_x[0] = norm;`), discarding the raw flux at index 0. -/
def mc_raw_cdf (omega_delta : ℚ) (flux : List ℚ) : List ℚ :=
  match flux with
  | [] => []
  | _x0 :: rest => 0 :: mc_cdf_loop omega_delta 0 rest

/-- `integrated_norm`: the value of `norm` after the accumulation loop, i.e.
the last entry of the un-normalized cumulative sequence (`0` when the grid is
empty, matching a loop that never runs). -/
def mc_integrated_norm (omega_delta : ℚ) (flux : List ℚ) : ℚ :=
  ((mc_raw_cdf omega_delta flux).getLast?).getD 0

/-- The normalized cumulative sequence stored in `inv_cdf_data_x`:
`inv_cdf_data_x[i] = inv_cdf_data_x[i]/integrated_norm`. -/
def mc_inv_cdf_data_x (omega_delta : ℚ) (flux : List ℚ) : List ℚ :=
  (mc_raw_cdf omega_delta flux).map (fun x => x / mc_integrated_norm omega_delta flux)

/-!  Concrete instances used to witness the claims on explicit inputs. -/

/-- A concrete solar model (all rate accessors constantly `1`, temperature `1`,
radius range `[0, 1]`, `OP` opacity code) used as a witness input. -/
noncomputable def demoModel : SolarModel where
  r_lo := 0
  r_hi := 1
  opcode := OpacityCode.OP
  Gamma_P_Primakoff := fun _ _ => 1
  Gamma_P_Compton := fun _ _ => 1
  Gamma_P_opacity_element := fun _ _ _ => 1
  Gamma_P_opacity := fun _ _ => 1
  Gamma_P_ff := fun _ _ => 1
  Gamma_P_ee := fun _ _ => 1
  Gamma_P_all_electron := fun _ _ => 1
  temperature_in_keV := fun _ => 1

/-- A variant of `demoModel` carrying the `OPAS` opacity code. -/
noncomputable def demoModelOPAS : SolarModel :=
  { demoModel with opcode := OpacityCode.OPAS }

/-- A concrete interpolator with domain `[0, 10]` used as a witness input;
`loadDemo` stands for the `OneDInterpolator` file constructor. -/
def loadDemo : String → OneDInterpolator :=
  fun _ => ⟨0, 10, fun _ => 0⟩

/-!  Helper lemmas shared by the claim theorems. -/

/-- The element loop of `integrand_opacity` accumulates exactly the sum of the
per-element rates over the index interval `[2, num_op_elements)`. -/
theorem op_element_loop_eq_sum (N : ℕ) (names : ℕ → String) (sol : SolarModel) (erg r : ℝ) :
    op_element_loop N names sol erg r =
      ∑ k in Finset.Ico 2 N, sol.Gamma_P_opacity_element erg r (names k) := by
  unfold op_element_loop
  rw [show (0.0 : ℝ) = 0 by norm_num]
  induction N with
  | zero => simp
  | succ n ih =>
    by_cases h : 2 ≤ n
    · have h2 : 2 - (List.range n).length = 0 := by simp [Nat.sub_eq_zero_of_le h]
      rw [List.range_succ, List.drop_append_eq_append_drop, h2, List.map_append,
        List.foldl_append, ih, Finset.sum_Ico_succ_top h]
      simp
    · have hn : n + 1 ≤ 2 := by omega
      rw [List.drop_eq_nil_of_le (by simpa using hn)]
      rw [Finset.Ico_eq_empty (by omega)]
      simp

/-- The function-local peak list of `integrated_flux_from_file` is strictly
increasing. -/
theorem all_peaks_sorted : all_peaks.Sorted (· < ·) := by
  rw [List.Sorted, ← List.chain'_iff_pairwise]
  norm_num [all_peaks]

/-- Prepending the window's lower edge and appending its upper edge to the
filtered peak list yields a `≤`-sorted break-point list. -/
theorem breakpoints_sorted (a b : ℚ) (l : List ℚ) (hl : l.Sorted (· < ·)) (hab : a ≤ b) :
    (a :: (l.filter (fun p => a < p ∧ p < b) ++ [b])).Sorted (· ≤ ·) := by
  have hf : ∀ x ∈ l.filter (fun p => a < p ∧ p < b), a < x ∧ x < b := by
    intro x hx
    have := List.of_mem_filter hx
    simpa using this
  rw [List.sorted_cons]
  refine ⟨?_, ?_⟩
  · intro x hx
    rcases List.mem_append.mp hx with hx | hx
    · exact (hf x hx).1.le
    · simp only [List.mem_singleton] at hx
      exact hx ▸ hab
  · refine List.pairwise_append.mpr ⟨(hl.filter _).le_of_lt, List.sorted_singleton b, ?_⟩
    intro x hx y hy
    simp only [List.mem_singleton] at hy
    exact hy ▸ (hf x hx).2.le

/-!  The claims. -/

/-- C2: the weighted-Compton integrand returns exactly `0` at `erg = 0` for
every radius and every solar model, and at `erg ≠ 0` it returns
`0.5*(r*erg/π)² * 0.5*(1 - 1/(exp(erg/T(r)) - 1)) * Gamma_P_Compton(erg, r)`. -/
theorem claim_C2_weightedCompton_formula (s : SolarModel) (iso : Isotope) (r : ℝ) :
    integrand_weightedCompton r ⟨0, s, iso⟩ = 0 ∧
    ∀ erg : ℝ, erg ≠ 0 →
      integrand_weightedCompton r ⟨erg, s, iso⟩ =
        0.5 * (r * erg / Real.pi)^2 *
          (0.5 * (1 - 1 / (Real.exp (erg / s.temperature_in_keV r) - 1))) *
          s.Gamma_P_Compton erg r := by
  constructor
  · simp [integrand_weightedCompton]
  · intro erg h
    simp only [integrand_weightedCompton, gsl_pow_2, gsl_expm1, pi, if_neg h]
    ring

/-- Witness for C2 at `erg = 1`, `r = 0.7` on `demoModel`. -/
theorem claim_C2_weightedCompton_formula_witness :
    (1 : ℝ) ≠ 0 ∧
    integrand_weightedCompton 0.7 ⟨1, demoModel, ""⟩ =
      0.5 * (0.7 * 1 / Real.pi)^2 *
        (0.5 * (1 - 1 / (Real.exp (1 / demoModel.temperature_in_keV 0.7) - 1))) *
        demoModel.Gamma_P_Compton 1 0.7 :=
  ⟨one_ne_zero, (claim_C2_weightedCompton_formula demoModel "" 0.7).2 1 one_ne_zero⟩

/-- C4: in `calculate_spectral_flux_solar_disc` the upper integration bound of
the outer (impact-parameter) integral and the upper bound of every inner
(line-of-sight) integral — as well as the `r_max` field stored in the parameter
bundle — all equal `min(requested r_max, s.r_hi)`. -/
theorem claim_C4_disc_r_max_clamped (radius_sol keV2cm distance_sol hbar : ℝ)
    (qag cquad : QuadRule) (ergs : List ℝ) (iso : Isotope) (r_max : ℝ) (s : SolarModel)
    (g : SolarModel → ℝ → ℝ → ℝ) :
    calculate_spectral_flux_solar_disc radius_sol keV2cm distance_sol hbar
        qag cquad ergs iso r_max s g =
      ergs.map (fun erg =>
        unit_factor radius_sol keV2cm distance_sol hbar * 1.0 *
          qag (fun rad =>
              rad * cquad
                (fun rho => rho_integrand rho ⟨erg, rad, min r_max s.r_hi, s, g⟩)
                rad (min r_max s.r_hi))
            s.r_lo (min r_max s.r_hi)) := by
  unfold calculate_spectral_flux_solar_disc rad_integrand
  simp only [min_assoc, min_self]

/-- C8: `calculate_flux` returns exactly `1e20` times the outer quadrature
estimate over `[lowerlimit, upperlimit]` of the volume-integrated spectral
flux, each inner evaluation being scaled by the dimensional factor and divided
by the integrand-local `normfactor = 1.0`. -/
theorem claim_C8_calculate_flux_scaling (radius_sol keV2cm distance_sol hbar : ℝ)
    (qag qag_2 : QuadRule) (lowerlimit upperlimit : ℝ) (s : SolarModel) (iso : Isotope) :
    calculate_flux radius_sol keV2cm distance_sol hbar qag qag_2 lowerlimit upperlimit s iso =
      1.0e20 * qag_2
        (fun erg =>
          unit_factor radius_sol keV2cm distance_sol hbar *
            qag (fun r => 0.5 * (r * erg / Real.pi)^2 * s.Gamma_P_all_electron erg r)
              s.r_lo s.r_hi / 1.0)
        lowerlimit upperlimit := by
  simp only [calculate_flux, spectral_flux_integrand, integrand_all_axionelectron,
    gsl_pow_2, pi]
  have h : ∀ erg : ℝ,
      (fun r : ℝ => 0.5 * (r * erg / Real.pi * (r * erg / Real.pi)) * s.Gamma_P_all_electron erg r)
        = fun r : ℝ => 0.5 * (r * erg / Real.pi)^2 * s.Gamma_P_all_electron erg r :=
    fun erg => funext fun r => by ring
  simp only [h]
  rw [mul_comm]

/-- C10: `calculate_flux` exposes no process selector; it is exactly the
process-generic windowed integrator instantiated at
`integrand_all_axionelectron`, so this interface always computes the combined
axion-electron flux. -/
theorem claim_C10_hard_coded_axionelectron (radius_sol keV2cm distance_sol hbar : ℝ)
    (qag qag_2 : QuadRule) (lowerlimit upperlimit : ℝ) (s : SolarModel) (iso : Isotope) :
    calculate_flux radius_sol keV2cm distance_sol hbar qag qag_2 lowerlimit upperlimit s iso =
      calculate_flux_with_process radius_sol keV2cm distance_sol hbar qag qag_2
        (fun r p => integrand_all_axionelectron r p) lowerlimit upperlimit s iso := rfl

/-- C1: evaluation of the disc integrator's inner integrand at the concrete
input `erg = π`, `rad = 0`, `rho = 1`, `r_max = 1` with the constant process
`1` (so `rad < rho ≤ r_max`).  The code's `rho_integrand` evaluates to `1/4`
because its energy weight is `(0.5·erg/π)²` (`gsl_pow_2(0.5*erg/pi)`), while
the formula of the claim, `(rho/√(rho²-rad²)) · 0.5·(erg/π)² · process`,
evaluates to `1/2` there: the code computes half the claimed integrand. -/
theorem claim_C1_rho_integrand_weight :
    rho_integrand 1 ⟨Real.pi, 0, 1, demoModel, fun _ _ _ => 1⟩ = 1/4 ∧
    (1 / Real.sqrt ((1:ℝ)^2 - 0^2)) * (0.5 * (Real.pi / Real.pi)^2) * 1 = 1/2 := by
  have hπ : Real.pi / Real.pi = 1 := div_self Real.pi_ne_zero
  constructor
  · simp only [rho_integrand, gsl_pow_2, pi]
    simp only [show (1:ℝ) * 1 - 0 * 0 = 1 by norm_num, Real.sqrt_one, mul_div_assoc, hπ]
    norm_num
  · norm_num [hπ, Real.sqrt_one]

/-- C3: `integrated_flux_from_file` reports the range error exactly when
`erg_min` lies strictly below the table's lower bound or `erg_max` strictly
above its upper bound, independently of the quadrature oracles; otherwise — in
particular when the window's endpoints equal the table's bounds — it returns a
result. -/
theorem claim_C3_range_error_iff (qag : QuadRuleQ) (qagp : QuadRuleP)
    (load : String → OneDInterpolator) (erg_min erg_max : ℚ) (file : String) (flag : Bool) :
    ((∃ msg, integrated_flux_from_file qag qagp load erg_min erg_max file flag =
        Except.error msg) ↔
      (erg_min < (load file).lower ∨ erg_max > (load file).upper)) ∧
    (¬(erg_min < (load file).lower ∨ erg_max > (load file).upper) →
      ∃ val, integrated_flux_from_file qag qagp load erg_min erg_max file flag =
        Except.ok val) := by
  simp only [integrated_flux_from_file]
  by_cases h : erg_min < (load file).lower ∨ erg_max > (load file).upper
  · rw [if_pos h]
    exact ⟨⟨fun _ => h, fun _ => ⟨_, rfl⟩⟩, fun hc => absurd h hc⟩
  · rw [if_neg h]
    refine ⟨⟨?_, fun hc => absurd hc h⟩, ?_⟩
    · rintro ⟨msg, hmsg⟩
      cases flag <;> simp at hmsg
    · intro _
      cases flag
      · exact ⟨_, rfl⟩
      · exact ⟨_, rfl⟩

/-- Witness for C3: a window whose endpoints exactly equal the table's bounds
`[0, 10]` is accepted and produces a result. -/
theorem claim_C3_range_error_iff_witness :
    ¬((0:ℚ) < (loadDemo "table").lower ∨ (10:ℚ) > (loadDemo "table").upper) ∧
    ∃ val, integrated_flux_from_file (fun _ _ _ => 0) (fun _ _ => 0) loadDemo 0 10
      "table" false = Except.ok val :=
  ⟨by decide,
   (claim_C3_range_error_iff (fun _ _ _ => 0) (fun _ _ => 0) loadDemo 0 10 "table" false).2
     (by decide)⟩

/-- C5: when the electron-interaction flag is set, `integrated_flux_from_file`
hands the singular-point quadrature exactly the ordered break-point list
`erg_min :: (peaks strictly inside the window) ++ [erg_max]`; when the flag is
cleared it performs a single adaptive integration over `[erg_min, erg_max]`. -/
theorem claim_C5_peak_splitting (qag : QuadRuleQ) (qagp : QuadRuleP)
    (load : String → OneDInterpolator) (erg_min erg_max : ℚ) (file : String)
    (hlo : (load file).lower ≤ erg_min) (hhi : erg_max ≤ (load file).upper)
    (hab : erg_min ≤ erg_max) :
    integrated_flux_from_file qag qagp load erg_min erg_max file true =
      Except.ok (qagp (fun erg => flux_from_file_integrand erg (load file))
        (erg_min :: (all_peaks.filter (fun p => erg_min < p ∧ p < erg_max) ++ [erg_max]))) ∧
    (erg_min :: (all_peaks.filter (fun p => erg_min < p ∧ p < erg_max) ++ [erg_max])).Sorted
      (· ≤ ·) ∧
    integrated_flux_from_file qag qagp load erg_min erg_max file false =
      Except.ok (qag (fun erg => flux_from_file_integrand erg (load file)) erg_min erg_max) := by
  have h : ¬(erg_min < (load file).lower ∨ erg_max > (load file).upper) :=
    not_or.mpr ⟨not_lt.mpr hlo, not_lt.mpr hhi⟩
  refine ⟨?_, breakpoints_sorted _ _ _ all_peaks_sorted hab, ?_⟩
  · simp only [integrated_flux_from_file]
    rw [if_neg h]
    simp
  · simp only [integrated_flux_from_file]
    rw [if_neg h]
    simp

/-- Witness for C5 on the window `[1, 2]` inside the table domain `[0, 10]`. -/
theorem claim_C5_peak_splitting_witness :
    (loadDemo "table").lower ≤ 1 ∧ (2:ℚ) ≤ (loadDemo "table").upper ∧ (1:ℚ) ≤ 2 ∧
    ((1:ℚ) :: (all_peaks.filter (fun p => 1 < p ∧ p < 2) ++ [2])).Sorted (· ≤ ·) :=
  ⟨by decide, by decide, by decide,
   (claim_C5_peak_splitting (fun _ _ _ => 0) (fun _ _ => 0) loadDemo 1 2 "table"
     (by decide) (by decide) (by decide)).2.1⟩

/-- C6: evaluation of the cumulative-table construction at the failing input
`omega_delta = 1`, disc spectrum `[1, 0]` (all flux values non-negative, total
positive).  Because `inv_cdf_data_x[0]` is overwritten with `0` before the
accumulation loop reads it, the "trapezoidal" cumulant never sees the flux at
index 0: the un-normalized cumulative sequence is `[0, 0]`, `integrated_norm`
is `0`, and normalization divides by zero (embedded `0/0 = 0`; IEEE `NaN` in
the C++ code), so the stored sequence ends at `0`, not `1`. -/
theorem claim_C6_cdf_alias_eval :
    (∀ x ∈ [(1:ℚ), 0], 0 ≤ x) ∧
    (0:ℚ) < [(1:ℚ), 0].sum ∧
    mc_raw_cdf 1 [1, 0] = [0, 0] ∧
    mc_integrated_norm 1 [1, 0] = 0 ∧
    mc_inv_cdf_data_x 1 [1, 0] = [0, 0] := by
  have hraw : mc_raw_cdf 1 [(1:ℚ), 0] = [0, 0] := by
    norm_num [mc_raw_cdf, mc_cdf_loop]
  refine ⟨by decide, by simp, hraw, ?_, ?_⟩
  · unfold mc_integrated_norm
    rw [hraw]
    rfl
  · unfold mc_inv_cdf_data_x
    rw [hraw]
    simp

/-- C7: for `omega_min < omega_max` and `omega_delta > 0`, the constructor's
energy grid has exactly `⌊(omega_max - omega_min)/omega_delta⌋` points and its
`i`-th point is `omega_min + i*omega_delta`. -/
theorem claim_C7_mc_energy_grid_uniform (omega_min omega_max omega_delta : ℚ)
    (h1 : omega_min < omega_max) (h2 : 0 < omega_delta) :
    ((mc_energy_grid omega_min omega_max omega_delta).length : ℤ) =
      ⌊(omega_max - omega_min) / omega_delta⌋ ∧
    ∀ i : ℕ, i < (mc_energy_grid omega_min omega_max omega_delta).length →
      (mc_energy_grid omega_min omega_max omega_delta).getD i 0 =
        omega_min + (i : ℚ) * omega_delta := by
  have hq : (0:ℚ) ≤ (omega_max - omega_min) / omega_delta :=
    div_nonneg (by linarith) h2.le
  have htr : c_int_trunc ((omega_max - omega_min) / omega_delta) =
      ⌊(omega_max - omega_min) / omega_delta⌋ := by
    unfold c_int_trunc
    rw [if_pos hq]
  have hlen : (mc_energy_grid omega_min omega_max omega_delta).length =
      (c_int_trunc ((omega_max - omega_min) / omega_delta)).toNat := by
    unfold mc_energy_grid
    rw [List.length_map, List.length_range]
  constructor
  · rw [hlen, htr]
    exact Int.toNat_of_nonneg (Int.floor_nonneg.mpr hq)
  · intro i hi
    rw [hlen] at hi
    unfold mc_energy_grid
    rw [List.getD_eq_getElem _ _ (by simpa [mc_energy_grid] using hi)]
    rw [List.getElem_map, List.getElem_range]

/-- Witness for C7 on the grid `[0, 3)` with step `1`. -/
theorem claim_C7_mc_energy_grid_uniform_witness :
    ((0:ℚ) < 3) ∧ ((0:ℚ) < 1) ∧
    ((mc_energy_grid 0 3 1).length : ℤ) = ⌊((3:ℚ) - 0) / 1⌋ ∧
    (mc_energy_grid 0 3 1).getD 2 0 = 0 + (2:ℚ) * 1 := by
  have hi : 2 < (mc_energy_grid 0 3 1).length := by
    norm_num [mc_energy_grid, c_int_trunc]
  exact ⟨by decide, by decide,
    (claim_C7_mc_energy_grid_uniform 0 3 1 (by decide) (by decide)).1,
    (claim_C7_mc_energy_grid_uniform 0 3 1 (by decide) (by decide)).2 2 hi⟩

/-- C9: the aggregated-metal opacity integrand returns the geometric weight
times the sum of the per-element rates over loop indices `k ≥ 2` when the
model's opacity code is `OP`, and the geometric weight times the single
aggregate rate when the code is `OPAS`, `LEDCOP` or `ATOMIC`. -/
theorem claim_C9_integrand_opacity_dispatch (N : ℕ) (names : ℕ → String)
    (s : SolarModel) (iso : Isotope) (r erg : ℝ) :
    (s.opcode = OpacityCode.OP →
      integrand_opacity N names r ⟨erg, s, iso⟩ =
        0.5 * (r * erg / Real.pi)^2 *
          ∑ k in Finset.Ico 2 N, s.Gamma_P_opacity_element erg r (names k)) ∧
    (s.opcode = OpacityCode.OPAS ∨ s.opcode = OpacityCode.LEDCOP ∨
        s.opcode = OpacityCode.ATOMIC →
      integrand_opacity N names r ⟨erg, s, iso⟩ =
        0.5 * (r * erg / Real.pi)^2 * s.Gamma_P_opacity erg r) := by
  have hred : integrand_opacity N names r ⟨erg, s, iso⟩ =
      if s.opcode = OpacityCode.OPAS ∨ s.opcode = OpacityCode.LEDCOP ∨
          s.opcode = OpacityCode.ATOMIC then
        0.5 * gsl_pow_2 (r * erg / pi) * s.Gamma_P_opacity erg r
      else if s.opcode = OpacityCode.OP then
        0.5 * gsl_pow_2 (r * erg / pi) * op_element_loop N names s erg r
      else 0.0 := rfl
  constructor
  · intro h
    rw [hred, h, if_neg (by decide), if_pos rfl, op_element_loop_eq_sum]
    simp only [gsl_pow_2, pi]
    ring
  · intro h
    rw [hred, if_pos h]
    simp only [gsl_pow_2, pi]
    ring

/-- Witness for C9 on `demoModel` (`OP`) and `demoModelOPAS` (`OPAS`) with four
tabulated elements. -/
theorem claim_C9_integrand_opacity_dispatch_witness :
    demoModel.opcode = OpacityCode.OP ∧
    integrand_opacity 4 (fun _ => "Fe") 0.5 ⟨2, demoModel, ""⟩ =
      0.5 * (0.5 * 2 / Real.pi)^2 *
        ∑ k in Finset.Ico 2 4, demoModel.Gamma_P_opacity_element 2 0.5 ((fun _ => "Fe") k) ∧
    demoModelOPAS.opcode = OpacityCode.OPAS ∧
    integrand_opacity 4 (fun _ => "Fe") 0.5 ⟨2, demoModelOPAS, ""⟩ =
      0.5 * (0.5 * 2 / Real.pi)^2 * demoModelOPAS.Gamma_P_opacity 2 0.5 :=
  ⟨rfl,
   (claim_C9_integrand_opacity_dispatch 4 (fun _ => "Fe") demoModel "" 0.5 2).1 rfl,
   rfl,
   (claim_C9_integrand_opacity_dispatch 4 (fun _ => "Fe") demoModelOPAS "" 0.5 2).2
     (Or.inl rfl)⟩

end SolarAxionFlux
